import Mathlib

/-!
Verification of the Elasticsearch full-replication engine
(`es_replicator.py`) against its natural-language specification.

The Python module is shallowly embedded below.  Python dictionaries are
modelled as association lists of key/value pairs, machine behaviour that can
raise (name resolution, mixed-type key sorting) is modelled with `Except`,
and the two store clusters are modelled as explicit values passed to the
embedded functions.  Network calls are modelled as succeeding; the claims
under scrutiny are about the engine's own control flow and arithmetic.
-/

namespace EsReplicator

/-- A Python dictionary key as it occurs in a document source: either a
string or an integer.  (`es_replicator.py` hashes `doc['_source']`, a dict
whose keys are normally strings; an integer key is how a document whose
fields cannot be serialized for hashing arises, since `sorted` raises
`TypeError` on mixed key types.) -/
inductive PyKey where
  | str (s : String)
  | int (n : Int)
deriving DecidableEq, Repr

/-- A Python value stored in a document field. -/
inductive Value where
  | str (s : String)
  | int (n : Int)
  | bool (b : Bool)
  | pynone
deriving DecidableEq, Repr

/-- A Python dict, as an ordered association list (insertion order),
keys pairwise distinct in every dict produced by the store. -/
abbrev PyDict : Type := List (PyKey × Value)

/-- Python `d.get(k)`: the stored value, or `None` when absent.  Python
`None` is modelled as `Option.none` here so that `.get` on a missing field
is distinguishable from every stored value. -/
def pyDictGet (d : PyDict) (k : PyKey) : Option Value :=
  match d.find? (fun p => p.1 == k) with
  | some p => some p.2
  | none => none

/-- Python `{**d, k: v}`: replaces the value of an existing key in place,
otherwise appends the new pair. -/
def pyDictSet (d : PyDict) (k : PyKey) (v : Value) : PyDict :=
  if d.any (fun p => p.1 == k) then
    d.map (fun p => if p.1 == k then (k, v) else p)
  else
    d ++ [(k, v)]

/-- Comparison used by Python `sorted` on `(key, value)` pairs drawn from a
dict: tuples are compared on the key first, and since dict keys are
pairwise distinct the value components are never compared.  The cross-type
cases are given an arbitrary total completion; `sortedItemsE` below never
sorts a mixed-key dict (Python raises `TypeError` there). -/
def pyKeyLe : PyKey → PyKey → Prop
  | .str a, .str b => a ≤ b
  | .int a, .int b => a ≤ b
  | .int _, .str _ => True
  | .str _, .int _ => False

instance : DecidableRel pyKeyLe := fun a b => by
  cases a <;> cases b <;> simp only [pyKeyLe] <;> infer_instance

/-- Pair ordering induced by the key ordering. -/
def itemLe (p q : PyKey × Value) : Prop := pyKeyLe p.1 q.1

instance : DecidableRel itemLe := fun p q => by
  unfold itemLe
  infer_instance

instance : IsTotal PyKey pyKeyLe where
  total a b := by
    cases a <;> cases b <;> simp only [pyKeyLe] <;> try exact Or.inl trivial
    · exact le_total _ _
    · exact Or.inr trivial
    · exact le_total _ _

instance : IsTrans PyKey pyKeyLe where
  trans a b c hab hbc := by
    cases a <;> cases b <;> cases c <;>
      simp only [pyKeyLe] at hab hbc ⊢ <;> first
      | trivial
      | exact le_trans hab hbc

theorem pyKeyLe_antisymm : ∀ {a b : PyKey}, pyKeyLe a b → pyKeyLe b a → a = b := by
  intro a b hab hba
  cases a <;> cases b <;> simp only [pyKeyLe] at hab hba
  · exact congrArg PyKey.str (le_antisymm hab hba)
  · exact congrArg PyKey.int (le_antisymm hab hba)

instance : IsTotal (PyKey × Value) itemLe where
  total p q := IsTotal.total (r := pyKeyLe) p.1 q.1

instance : IsTrans (PyKey × Value) itemLe where
  trans _ _ _ hpq hqs := Trans.trans (r := pyKeyLe) (s := pyKeyLe) hpq hqs

/-- True when every key of the dict is a string. -/
def allStrKeys (d : PyDict) : Bool :=
  d.all (fun p => match p.1 with | .str _ => true | .int _ => false)

/-- True when every key of the dict is an integer. -/
def allIntKeys (d : PyDict) : Bool :=
  d.all (fun p => match p.1 with | .int _ => true | .str _ => false)

/-- Python `sorted(doc_source.items())`.  Succeeds, sorting the pairs by
key, when the keys are of one comparable type; raises `TypeError` (modelled
as `Except.error`) when string and integer keys are mixed, since Python
cannot order `str` against `int`. -/
def sortedItemsE (d : PyDict) : Except String (List (PyKey × Value)) :=
  if allStrKeys d || allIntKeys d then
    .ok (List.insertionSort itemLe d)
  else
    .error "TypeError: unorderable key types in document source"

/-- The single-quote character, written by code point to keep the source
free of quote-escape sequences. -/
def sq : Char := Char.ofNat 39

/-- The backslash character. -/
def bsl : Char := Char.ofNat 92

/-- Python `repr` of a string: single-quoted with backslash and quote
escaped (the common cases; enough to be injective on the strings the
replicator handles). -/
def pyStrRepr (s : String) : String :=
  String.singleton sq ++
    String.join (s.data.map (fun c =>
      if c = bsl then String.singleton bsl ++ String.singleton bsl
      else if c = sq then String.singleton bsl ++ String.singleton sq
      else String.singleton c)) ++
  String.singleton sq

/-- Python `repr`/`str` of a dict key. -/
def pyKeyRepr : PyKey → String
  | .str s => pyStrRepr s
  | .int n => toString n

/-- Python `repr` of a field value. -/
def pyValueRepr : Value → String
  | .str s => pyStrRepr s
  | .int n => toString n
  | .bool true => "True"
  | .bool false => "False"
  | .pynone => "None"

/-- Python `str` of a list of `(key, value)` tuples, as produced by
`str(sorted(doc_source.items()))`. -/
def pyItemsRepr (items : List (PyKey × Value)) : String :=
  "[" ++ String.intercalate ", "
    (items.map (fun p => "(" ++ pyKeyRepr p.1 ++ ", " ++ pyValueRepr p.2 ++ ")")) ++ "]"

/-- UTF-8 encoding of one character, as byte values. -/
def utf8EncodeChar (c : Char) : List Nat :=
  let n := c.toNat
  if n < 128 then [n]
  else if n < 2048 then [192 + n / 64, 128 + n % 64]
  else if n < 65536 then [224 + n / 4096, 128 + n / 64 % 64, 128 + n % 64]
  else [240 + n / 262144, 128 + n / 4096 % 64, 128 + n / 64 % 64, 128 + n % 64]

/-- Python `s.encode('utf-8')`. -/
def utf8Encode (s : String) : List Nat :=
  (s.data.map utf8EncodeChar).flatten

/-- Truncation to a 32-bit word. -/
def w32 (n : Nat) : Nat := n % 4294967296

/-- 32-bit right rotation. -/
def rotr32 (n x : Nat) : Nat := w32 (x / 2 ^ n + x % 2 ^ n * 2 ^ (32 - n))

/-- SHA-256 round constants (FIPS 180-4, in decimal). -/
def shaK : List Nat :=
  [1116352408, 1899447441, 3049323471, 3921009573, 961987163,
   1508970993, 2453635748, 2870763221, 3624381080, 310598401,
   607225278, 1426881987, 1925078388, 2162078206, 2614888103,
   3248222580, 3835390401, 4022224774, 264347078, 604807628,
   770255983, 1249150122, 1555081692, 1996064986, 2554220882,
   2821834349, 2952996808, 3210313671, 3336571891, 3584528711,
   113926993, 338241895, 666307205, 773529912, 1294757372,
   1396182291, 1695183700, 1986661051, 2177026350, 2456956037,
   2730485921, 2820302411, 3259730800, 3345764771, 3516065817,
   3600352804, 4094571909, 275423344, 430227734, 506948616,
   659060556, 883997877, 958139571, 1322822218, 1537002063,
   1747873779, 1955562222, 2024104815, 2227730452, 2361852424,
   2428436474, 2756734187, 3204031479, 3329325298]

/-- SHA-256 initial hash state (FIPS 180-4, in decimal). -/
def shaH0 : List Nat :=
  [1779033703, 3144134277, 1013904242, 2773480762,
   1359893119, 2600822924, 528734635, 1541459225]

/-- SHA-256 padding: append the 0x80 marker, zero bytes to 56 mod 64, then
the 8-byte big-endian bit length. -/
def shaPad (msg : List Nat) : List Nat :=
  let bitLen := 8 * msg.length
  let zeros := (119 - msg.length % 64) % 64
  msg ++ [128] ++ List.replicate zeros 0 ++
    (List.range 8).map (fun i => bitLen / 2 ^ (8 * (7 - i)) % 256)

/-- Big-endian 32-bit words of one 64-byte block. -/
def blockWords (block : List Nat) : Array Nat :=
  ((List.range 16).map (fun i =>
    block.getD (4 * i) 0 * 16777216 + block.getD (4 * i + 1) 0 * 65536 +
      block.getD (4 * i + 2) 0 * 256 + block.getD (4 * i + 3) 0)).toArray

/-- SHA-256 message schedule: extend 16 words to 64. -/
def shaSchedule (ws : Array Nat) : Array Nat :=
  (List.range 48).foldl (fun w i =>
    let t := i + 16
    let s0 := Nat.xor (rotr32 7 (w.getD (t - 15) 0))
      (Nat.xor (rotr32 18 (w.getD (t - 15) 0)) (w.getD (t - 15) 0 / 8))
    let s1 := Nat.xor (rotr32 17 (w.getD (t - 2) 0))
      (Nat.xor (rotr32 19 (w.getD (t - 2) 0)) (w.getD (t - 2) 0 / 1024))
    w.push (w32 (w.getD (t - 16) 0 + s0 + w.getD (t - 7) 0 + s1))) ws

/-- One SHA-256 compression round. -/
def shaRound (st : List Nat) (kw : Nat × Nat) : List Nat :=
  let a := st.getD 0 0
  let b := st.getD 1 0
  let c := st.getD 2 0
  let d := st.getD 3 0
  let e := st.getD 4 0
  let f := st.getD 5 0
  let g := st.getD 6 0
  let h := st.getD 7 0
  let s1 := Nat.xor (rotr32 6 e) (Nat.xor (rotr32 11 e) (rotr32 25 e))
  let ch := Nat.xor (Nat.land e f) (Nat.land (Nat.xor e 4294967295) g)
  let t1 := w32 (h + s1 + ch + kw.1 + kw.2)
  let s0 := Nat.xor (rotr32 2 a) (Nat.xor (rotr32 13 a) (rotr32 22 a))
  let mj := Nat.xor (Nat.land a b) (Nat.xor (Nat.land a c) (Nat.land b c))
  let t2 := w32 (s0 + mj)
  [w32 (t1 + t2), a, b, c, w32 (d + t1), e, f, g]

/-- SHA-256 compression of one block into the running hash state. -/
def shaCompress (st : List Nat) (block : List Nat) : List Nat :=
  let w := shaSchedule (blockWords block)
  let out := (shaK.zip w.toList).foldl (fun s p => shaRound s (p.2, p.1)) st
  (st.zip out).map (fun p => w32 (p.1 + p.2))

/-- Hexadecimal digit character. -/
def hexDigit (n : Nat) : Char :=
  if n < 10 then Char.ofNat (48 + n) else Char.ofNat (87 + n)

/-- Lower-case 8-digit hexadecimal rendering of a 32-bit word. -/
def hex32 (x : Nat) : String :=
  String.mk ((List.range 8).map (fun i => hexDigit (x / 16 ^ (7 - i) % 16)))

/-- `hashlib.sha256(bytes).hexdigest()`. -/
def sha256hex (msg : List Nat) : String :=
  let padded := shaPad msg
  let blocks := (List.range (padded.length / 64)).map
    (fun i => (padded.drop (64 * i)).take 64)
  let final := blocks.foldl shaCompress shaH0
  String.join (final.map hex32)

/-- Embedding of `ESFullReplicator._generate_doc_hash` (es_replicator.py
lines 560-563): `hashlib.sha256(str(sorted(doc_source.items())).encode('utf-8')).hexdigest()`.
A `TypeError` raised by `sorted` on unserializable field maps propagates as
`Except.error`. -/
def generate_doc_hash (doc_source : PyDict) : Except String String :=
  match sortedItemsE doc_source with
  | .ok items => .ok (sha256hex (utf8Encode (pyItemsRepr items)))
  | .error e => .error e

/-- Decides, without computing any digest, whether `generate_doc_hash`
succeeds on a field map: it fails exactly when `sorted` raises. -/
def hashSucceeds (doc_source : PyDict) : Bool :=
  match sortedItemsE doc_source with
  | .ok _ => true
  | .error _ => false

/-- The per-collection statistics dict `{'processed', 'updated', 'failed'}`. -/
structure Stats where
  processed : Nat
  updated : Nat
  failed : Nat
deriving DecidableEq, Repr

/-- The zero statistics entry. -/
def stats0 : Stats := ⟨0, 0, 0⟩

/-- Pointwise accumulation of statistics (the `total_stats[k] += stats.get(k, 0)` loops). -/
def Stats.add (a b : Stats) : Stats :=
  ⟨a.processed + b.processed, a.updated + b.updated, a.failed + b.failed⟩

/-- A hit yielded by the scan: `_id` and `_source`. -/
structure RawDoc where
  id : String
  source : PyDict
deriving DecidableEq, Repr

/-- A staged bulk action (es_replicator.py lines 334-339). -/
structure Action where
  opType : String
  index : String
  id : String
  source : PyDict
deriving DecidableEq, Repr

/-- The reserved fingerprint field name (`self.checksum_field`). -/
def checksum_field : String := "_doc_hash"

/-- The configured batch size (`self.batch_size`). -/
def batch_size : Nat := 10000

/-- One iteration of the document loop inside `process_batch`
(es_replicator.py lines 331-343): stages one index action tagging the
source with its fingerprint; a document whose hash computation raises is
counted in the closed-over `stats['failed']` (the second component here)
and skipped, never aborting the rest of the batch. -/
def pbStep (target_index : String) (acc : List Action × Nat) (doc : RawDoc) :
    List Action × Nat :=
  match generate_doc_hash doc.source with
  | .ok h =>
      (acc.1 ++ [⟨"index", target_index, doc.id,
        pyDictSet doc.source (.str checksum_field) (.str h)⟩], acc.2)
  | .error _ => (acc.1, acc.2 + 1)

/-- Embedding of the inner function `process_batch` (es_replicator.py lines
329-344): the staged actions together with the failed-document count. -/
def process_batch (target_index : String) (batch : List RawDoc) : List Action × Nat :=
  batch.foldl (pbStep target_index) ([], 0)

/-- Modelled from the spec: `helpers.bulk(..., stats_only=True,
raise_on_error=False)` is third-party client code not present in the
repository; per the spec's store contract, `bulk_upsert` submits every
action, never raises on an individual document failure, and returns
`(success_count, failed_count)`.  Target-side acceptance of each action is
abstracted as the predicate `accept`. -/
def helpers_bulk (accept : Action → Bool) (actions : List Action) : Nat × Nat :=
  (actions.countP accept, actions.length - actions.countP accept)

/-- The acceptance predicate of a healthy target that rejects nothing. -/
def acceptAll : Action → Bool := fun _ => true

/-- One iteration of the batching loop body (es_replicator.py lines
363-392): stage actions, skip the bulk call when no action survived
(`if actions:`), otherwise submit the batch and collect
`(success, failed)` into the statistics. -/
def batchStep (accept : Action → Bool) (target_index : String) (batch : List RawDoc) :
    Stats × Option (List Action) :=
  let pb := process_batch target_index batch
  if pb.1.isEmpty then
    (⟨0, 0, pb.2⟩, none)
  else
    let res := helpers_bulk accept pb.1
    (⟨res.1, res.1, pb.2 + res.2⟩, some pb.1)

/-- Accumulation of one batch outcome into the running pass statistics and
the record of submitted bulk requests. -/
def loopStep (accept : Action → Bool) (target_index : String)
    (acc : Stats × List (List Action)) (b : List RawDoc) : Stats × List (List Action) :=
  let st := batchStep accept target_index b
  (acc.1.add st.1, acc.2 ++ (match st.2 with | some a => [a] | none => []))

/-- The whole batching loop over a list of batches, accumulating statistics
and recording every submitted bulk request. -/
def runBatchLoop (accept : Action → Bool) (target_index : String)
    (batches : List (List RawDoc)) : Stats × List (List Action) :=
  batches.foldl (loopStep accept target_index) (stats0, [])

/-- Partition of a document stream into groups of at most `n`. -/
def chunkList (n : Nat) (l : List RawDoc) : List (List RawDoc) :=
  (List.range ((l.length + n - 1) / n)).map (fun i => (l.drop (n * i)).take n)

/-- The names bound at module level in `es_replicator.py`: the imports of
lines 1-12 and the module's own top-level definitions.  Python resolves a
bare name inside a method against the local scope, the module globals and
the builtins; `batch_iterator` is bound in none of them (it is also not a
Python builtin). -/
def esReplicatorGlobals : List String :=
  ["logging", "datetime", "timedelta", "Elasticsearch", "helpers",
   "es_exceptions", "time", "re", "hashlib", "argparse", "yaml",
   "Dict", "Any", "List", "Optional", "ThreadPoolExecutor", "islice",
   "ESFullReplicator", "load_config", "parse_args", "merge_configs", "main"]

/-- A Python runtime error surfacing from `replicate_index`. -/
inductive PyErr where
  | nameError (n : String)
deriving DecidableEq, Repr

/-- The source cluster: collection name to scan result (list of hits). -/
abbrev SourceCluster : Type := List (String × List RawDoc)

instance : DecidableEq (Except PyErr Stats) := fun a b =>
  match a, b with
  | .ok x, .ok y => decidable_of_iff (x = y) (by simp)
  | .error x, .error y => decidable_of_iff (x = y) (by simp)
  | .ok _, .error _ => isFalse (by simp)
  | .error _, .ok _ => isFalse (by simp)

/-- Outcome of one `replicate_index` call: the returned statistics or the
propagated exception, the sequence of `refresh_interval` values pushed to
the target via `put_settings`, and the bulk requests submitted. -/
structure ReplicateOutcome where
  result : Except PyErr Stats
  refreshCalls : List String
  bulkRequests : List (List Action)
deriving DecidableEq, Repr

/-- Embedding of `ESFullReplicator.replicate_index` (es_replicator.py lines
292-409) with `target_index` defaulted to `source_index`.  `tgtIndices`
lists the collections existing on the target cluster.  Control flow in
source order: `put_settings` disabling refresh with `"-1"` (line 298) is
the first store call inside the `try`; when the target collection does not
yet exist the store answers 404, the client raises `NotFoundError`, and the
`except es_exceptions.NotFoundError` arm of lines 404-406 converts that
into an early return of the zero statistics — the creation of a missing
target at lines 312-313 is never reached, because line 298 already raised.
With the target present, a missing or empty source collection returns the
zero statistics early (lines 303-319); the batching loop's iterator
expression evaluates the bare name `batch_iterator` (line 351), so when
that name is unbound a `NameError` is raised before the scan is even
requested, logged and re-raised by the `except` clause of lines 407-409;
only the successful exit of the loop reaches the `put_settings` call
restoring `"1s"` (lines 397-400), which sits inside the `try` block, not in
a `finally`.  `refreshCalls` records the successfully applied refresh
settings.  The branch in which the name resolves models the batching a
generator of that name would perform; with `esReplicatorGlobals` it is
unreachable. -/
def replicate_index (globals : List String) (src : SourceCluster)
    (tgtIndices : List String) (accept : Action → Bool) (source_index : String) :
    ReplicateOutcome :=
  if !(tgtIndices.contains source_index) then ⟨.ok stats0, [], []⟩
  else
    match List.lookup source_index src with
    | none => ⟨.ok stats0, ["-1"], []⟩
    | some docs =>
      if docs.length = 0 then ⟨.ok stats0, ["-1"], []⟩
      else if globals.contains "batch_iterator" then
        let lr := runBatchLoop accept source_index (chunkList batch_size docs)
        ⟨.ok lr.1, ["-1", "1s"], lr.2⟩
      else ⟨.error (.nameError "batch_iterator"), ["-1"], []⟩

/-- Embedding of `ESFullReplicator._replicate_single_index` (es_replicator.py
lines 240-249): any exception escaping `replicate_index` is caught and
converted into the zero-progress entry `{'processed': 0, 'updated': 0,
'failed': 1}`. -/
def replicate_single_index (globals : List String) (src : SourceCluster)
    (tgtIndices : List String) (accept : Action → Bool) (index : String) : Stats :=
  match (replicate_index globals src tgtIndices accept index).result with
  | .ok s => s
  | .error _ => ⟨0, 0, 1⟩

/-- Accumulation of one collection into the pass totals. -/
def passStep (globals : List String) (src : SourceCluster) (tgtIndices : List String)
    (accept : Action → Bool) (acc : Stats) (i : String) : Stats :=
  acc.add (replicate_single_index globals src tgtIndices accept i)

/-- One pass of `ESFullReplicator.replicate_all_indices` (es_replicator.py
lines 200-217): every collection is handed to `_replicate_single_index` and
the per-collection statistics are accumulated into the pass totals.
(`_replicate_single_index` is total, so the `except` arm of lines 215-217
never fires; thread-pool scheduling only reorders commutative additions.) -/
def replicate_all_indices_pass (globals : List String) (src : SourceCluster)
    (tgtIndices : List String) (accept : Action → Bool) (indices : List String) : Stats :=
  indices.foldl (passStep globals src tgtIndices accept) stats0

/-- Embedding of `ESFullReplicator._init_last_sync_time` (es_replicator.py
lines 102-111).  `last_sync_time` starts as `None` (line 74); when the
metadata collection exists the checkpoint is read and parsed
(`readCheckpoint`, whose `.error` covers a missing or unparsable record);
any exception in that body selects the 24-hours-ago default
(`timedelta(days=1)` = 86400 seconds); when the collection does not exist
the `if` body is skipped, no exception occurs, and the field keeps `None`.
Times are seconds. -/
def init_last_sync_time (metaExists : Bool) (readCheckpoint : Except Unit Int)
    (now : Int) : Option Int :=
  if metaExists then
    match readCheckpoint with
    | .ok t => some t
    | .error _ => some (now - 86400)
  else none

/-- The verification statistics dict `{'checked', 'mismatches',
'missing_indices', 'count_mismatches'}`. -/
structure VerifyStats where
  checked : Nat
  mismatches : Nat
  missingIndices : Nat
  countMismatches : Nat
deriving DecidableEq, Repr

/-- The zero verification report. -/
def vstats0 : VerifyStats := ⟨0, 0, 0, 0⟩

/-- Python `abs(source_count - target_count)` on integers. -/
def absDiff (a b : Nat) : Nat := ((a : Int) - (b : Int)).natAbs

/-- What `verify_replication` observes about one collection: whether the
`indices.get` probes succeed on both clusters, the two total document
counts, and the two random samples (hit id paired with the projected
`_source`, which holds the checksum field when the stored document has
one).  The random choice of sample is external nondeterminism, so the
sampled hit lists are inputs here. -/
structure VerifyIndexInput where
  existsInBoth : Bool
  sourceCount : Nat
  targetCount : Nat
  sourceHits : List (String × PyDict)
  targetHits : List (String × PyDict)
deriving Repr

/-- Python dict built from `(id, value)` pairs by comprehension: a later
occurrence of an id overwrites the earlier value in place. -/
def dictOfPairs (l : List (String × Option Value)) : List (String × Option Value) :=
  l.foldl (fun d p =>
    if d.any (fun q => q.1 == p.1) then
      d.map (fun q => if q.1 == p.1 then p else q)
    else d ++ [p]) []

/-- The sampled id-to-fingerprint map of one side:
`{hit['_id']: hit['_source'].get(self.checksum_field) for hit in ...}`. -/
def sampleMap (hits : List (String × PyDict)) : List (String × Option Value) :=
  dictOfPairs (hits.map (fun h => (h.1, pyDictGet h.2 (.str checksum_field))))

/-- The hash-comparison loop of es_replicator.py lines 529-536: every id of
the source sample is visited; an id absent from the target sample, or
present with a different stored fingerprint, adds one mismatch; the
`checked` counter is incremented on every iteration, in every branch. -/
def compareSamples (st : VerifyStats) (srcMap tgtMap : List (String × Option Value)) :
    VerifyStats :=
  srcMap.foldl (fun s p =>
    match List.lookup p.1 tgtMap with
    | none =>
        { s with mismatches := s.mismatches + 1, checked := s.checked + 1 }
    | some tv =>
        if p.2 ≠ tv then
          { s with mismatches := s.mismatches + 1, checked := s.checked + 1 }
        else { s with checked := s.checked + 1 }) st

/-- Embedding of the per-collection body of
`ESFullReplicator.verify_replication` (es_replicator.py lines 473-545).
A collection absent on either side counts one mismatch and one missing
index and skips content comparison; unequal total counts add
`abs(source_count - target_count)` to both `mismatches` and
`count_mismatches`; when `min(1000, source_count)` is zero the sampling is
skipped; otherwise the two sampled id-to-fingerprint maps are compared. -/
def verifyIndexStep (st : VerifyStats) (inp : VerifyIndexInput) : VerifyStats :=
  if !inp.existsInBoth then
    { st with mismatches := st.mismatches + 1, missingIndices := st.missingIndices + 1 }
  else
    let st :=
      if inp.sourceCount ≠ inp.targetCount then
        let diff := absDiff inp.sourceCount inp.targetCount
        { st with mismatches := st.mismatches + diff,
                  countMismatches := st.countMismatches + diff }
      else st
    if min 1000 inp.sourceCount = 0 then st
    else compareSamples st (sampleMap inp.sourceHits) (sampleMap inp.targetHits)

/-- Embedding of `ESFullReplicator.verify_replication` over the list of
collections to verify. -/
def verify_replication (inputs : List VerifyIndexInput) : VerifyStats :=
  inputs.foldl verifyIndexStep vstats0

/-- Follows the spec's words, for comparison with the code: the number of
sampled source ids whose fingerprints are present and equal on both sides
(the spec's reading of the `checked` counter). -/
def specMatchingCount (srcMap tgtMap : List (String × Option Value)) : Nat :=
  srcMap.countP (fun p =>
    match List.lookup p.1 tgtMap with
    | none => false
    | some tv => p.2 == tv)

/-- The derived count of sample mismatches, mirroring the two mismatch
conditions of the comparison loop. -/
def sampleMismatchCount (srcMap tgtMap : List (String × Option Value)) : Nat :=
  srcMap.countP (fun p =>
    match List.lookup p.1 tgtMap with
    | none => true
    | some tv => p.2 != tv)

/-- The scan request issued by `replicate_index` (es_replicator.py lines
352-360): the `helpers.scan` keyword arguments as written at the call
site. -/
structure ScanCall where
  index : String
  size : Nat
  scroll : String
  preserveOrder : Bool
  requestTimeout : Nat
deriving DecidableEq, Repr

/-- The scan call `replicate_index` builds for a source collection:
`size=self.batch_size` (10000), `scroll=self.scroll_time` ("60m"),
`preserve_order=True`, `request_timeout=300`. -/
def replicateScanCall (source_index : String) : ScanCall :=
  ⟨source_index, batch_size, "60m", true, 300⟩

/-- A well-formed one-field document used in concrete runs. -/
def docW : RawDoc := ⟨"1", [(.str "f", .str "v")]⟩

/-- A source cluster with one non-empty collection and one empty one. -/
def srcW : SourceCluster := [("logs", [docW]), ("empty", [])]

/-- A target cluster on which the collection "logs" already exists. -/
def tgtW : List String := ["logs"]

/-- C1 counterexample: on a fresh run the target collection does not yet
exist, so the refresh-disabling `put_settings` of line 298 raises
`NotFoundError`, which the `except` arm of lines 404-406 swallows:
`replicate_index` on the existing, non-empty source collection "logs"
returns `processed = 0, updated = 0, failed = 0` without ever raising
`NameError` (and still bulk-loads nothing), refuting the claim that every
such replication ends in the failed path with `failed = 1`. -/
theorem replicate_absent_target_not_failed :
    replicate_index esReplicatorGlobals srcW [] acceptAll "logs" =
      ⟨.ok ⟨0, 0, 0⟩, [], []⟩ ∧
    replicate_single_index esReplicatorGlobals srcW [] acceptAll "logs" = ⟨0, 0, 0⟩ ∧
    replicate_single_index esReplicatorGlobals srcW [] acceptAll "logs" ≠ ⟨0, 0, 1⟩ :=
  ⟨rfl, rfl, by decide⟩

/-- C1 amended: when the target collection already exists, an existing
non-empty source collection makes the batching loop of `replicate_index`
evaluate the unbound name `batch_iterator`, so the call raises `NameError`,
submits no bulk request, and `_replicate_single_index` converts the escaped
exception into the statistics `processed = 0, updated = 0, failed = 1`.
(Without that hypothesis the line-298 `put_settings` raises `NotFoundError`
first and lines 404-406 return the zero statistics instead — see the
counterexample.) -/
theorem replicate_index_raises_name_error (src : SourceCluster)
    (tgtIndices : List String) (accept : Action → Bool) (idx : String)
    (docs : List RawDoc) (htgt : tgtIndices.contains idx = true)
    (hfound : List.lookup idx src = some docs) (hne : docs ≠ []) :
    "batch_iterator" ∉ esReplicatorGlobals ∧
    replicate_index esReplicatorGlobals src tgtIndices accept idx =
      ⟨.error (.nameError "batch_iterator"), ["-1"], []⟩ ∧
    replicate_single_index esReplicatorGlobals src tgtIndices accept idx = ⟨0, 0, 1⟩ := by
  have hni : "batch_iterator" ∉ esReplicatorGlobals := by decide
  have hlen : docs.length ≠ 0 := by simpa using hne
  refine ⟨hni, ?_, ?_⟩
  · unfold replicate_index
    rw [htgt, hfound]
    simp [hlen, hni]
  · unfold replicate_single_index replicate_index
    rw [htgt, hfound]
    simp [hlen, hni]

/-- Witness for C1's amended statement at a concrete non-empty collection
whose target already exists. -/
theorem replicate_index_raises_name_error_witness :
    tgtW.contains "logs" = true ∧ List.lookup "logs" srcW = some [docW] ∧
    replicate_single_index esReplicatorGlobals srcW tgtW acceptAll "logs" = ⟨0, 0, 1⟩ :=
  ⟨rfl, rfl,
    (replicate_index_raises_name_error srcW tgtW acceptAll "logs" [docW]
      rfl rfl (by simp)).2.2⟩

/-- C2: evaluating `replicate_index` on an existing non-empty collection
whose target collection exists shows that the run fails mid-scan and the only `put_settings` call made on
the target set `refresh_interval` to "-1"; the restoring call writing "1s"
(lines 397-400, inside the `try` body, not a `finally`) never runs, so the
error exit leaves the target's refresh interval disabled, contradicting the
claim that the restore step still runs when an unrecoverable error is
raised mid-scan. -/
theorem refresh_not_restored_on_error :
    (replicate_index esReplicatorGlobals srcW tgtW acceptAll "logs").refreshCalls = ["-1"] ∧
    (replicate_index esReplicatorGlobals srcW tgtW acceptAll "logs").result =
      .error (.nameError "batch_iterator") := by
  constructor <;> rfl

/-- C4 counterexample: when the metadata collection is absent, the
initializer leaves the last-sync time unset (`None`); it is not the
24-hours-ago default the claim asserts for the absent case. -/
theorem init_last_sync_absent_not_defaulted :
    init_last_sync_time false (.ok 0) 1000000 = none ∧
    init_last_sync_time false (.ok 0) 1000000 ≠ some (1000000 - 86400) := by
  constructor
  · rfl
  · decide

/-- C4 amended: the 24-hour lookback default applies only when reading the
checkpoint raises (record missing or unreadable while the metadata
collection exists); a readable checkpoint is used as persisted, and when
the metadata collection is absent the last-sync time stays unset. -/
theorem init_last_sync_cases (r : Except Unit Int) (now t : Int) :
    init_last_sync_time false r now = none ∧
    init_last_sync_time true (.error ()) now = some (now - 86400) ∧
    init_last_sync_time true (.ok t) now = some t :=
  ⟨rfl, rfl, rfl⟩

/-- C10 counterexample: the scan request built by `replicate_index` sets
`preserve_order=True`, so the cursor is not requested with preserve_order
semantics disabled. -/
theorem scan_preserve_order_enabled_at_logs :
    (replicateScanCall "logs").preserveOrder = true ∧
    (replicateScanCall "logs").preserveOrder ≠ false := by
  constructor
  · rfl
  · decide

/-- C10 amended: for every source collection, the scan call site requests
the cursor with `preserve_order` enabled (`True`), asking the store for
whole-collection ordering rather than leaving it disabled. -/
theorem scan_preserve_order_always_true (idx : String) :
    (replicateScanCall idx).preserveOrder = true :=
  rfl

/-- `List.all` is invariant under permutation. -/
theorem perm_all_eq {α : Type} {l1 l2 : List α} (hp : l1.Perm l2) (f : α → Bool) :
    l1.all f = l2.all f := by
  cases h1 : l1.all f <;> cases h2 : l2.all f <;> try rfl
  · rw [List.all_eq_true] at h2
    rcases (by simpa using h1 : ¬ ∀ x ∈ l1, f x = true) with h
    exact absurd (fun x hx => h2 x (hp.subset hx)) h
  · rw [List.all_eq_true] at h1
    rcases (by simpa using h2 : ¬ ∀ x ∈ l2, f x = true) with h
    exact absurd (fun x hx => h1 x (hp.symm.subset hx)) h

/-- Two item lists that are permutations of one another, both sorted by
key, with pairwise-distinct keys, are equal: the canonicalization behind
the hasher's determinism. -/
theorem sorted_perm_eq_of_nodup_keys :
    ∀ {l1 l2 : List (PyKey × Value)}, l1.Perm l2 → l1.Sorted itemLe →
      l2.Sorted itemLe → (l1.map Prod.fst).Nodup → l1 = l2 := by
  intro l1
  induction l1 with
  | nil =>
    intro l2 hp _ _ _
    exact hp.nil_eq
  | cons a t ih =>
    intro l2 hp hs1 hs2 hnd
    cases l2 with
    | nil => exact absurd hp.symm.nil_eq (by simp)
    | cons b t2 =>
      by_cases hab : a = b
      · subst hab
        have hpt : t.Perm t2 := hp.cons_inv
        have hndt : (t.map Prod.fst).Nodup := by
          rw [List.map_cons] at hnd
          exact (List.nodup_cons.mp hnd).2
        rw [ih hpt hs1.of_cons hs2.of_cons hndt]
      · exfalso
        have ha2 : a ∈ t2 := by
          have hmem : a ∈ b :: t2 := hp.subset (List.mem_cons_self a t)
          rcases List.mem_cons.mp hmem with h | h
          · exact absurd h hab
          · exact h
        have hbt : b ∈ t := by
          have hmem : b ∈ a :: t := hp.symm.subset (List.mem_cons_self b t2)
          rcases List.mem_cons.mp hmem with h | h
          · exact absurd h.symm hab
          · exact h
        have h1 : itemLe a b := List.rel_of_sorted_cons hs1 b hbt
        have h2 : itemLe b a := List.rel_of_sorted_cons hs2 a ha2
        have hk : a.1 = b.1 := pyKeyLe_antisymm h1 h2
        rw [List.map_cons] at hnd
        apply (List.nodup_cons.mp hnd).1
        rw [hk]
        exact List.mem_map_of_mem Prod.fst hbt

/-- C5: the fingerprint is deterministic.  Two field maps holding the same
keys and values (permutations of one another, keys pairwise distinct as in
every Python dict) are serialized through the same sorted item list, so
`_generate_doc_hash` returns the same digest regardless of insertion
order. -/
theorem generate_doc_hash_deterministic (m1 m2 : PyDict) (hp : m1.Perm m2)
    (hnd : (m1.map Prod.fst).Nodup) :
    generate_doc_hash m1 = generate_doc_hash m2 := by
  have hstr : allStrKeys m1 = allStrKeys m2 := perm_all_eq hp _
  have hint : allIntKeys m1 = allIntKeys m2 := perm_all_eq hp _
  have hsort : List.insertionSort itemLe m1 = List.insertionSort itemLe m2 := by
    apply sorted_perm_eq_of_nodup_keys
    · exact (List.perm_insertionSort itemLe m1).trans
        (hp.trans (List.perm_insertionSort itemLe m2).symm)
    · exact List.sorted_insertionSort itemLe m1
    · exact List.sorted_insertionSort itemLe m2
    · have hmp : ((List.insertionSort itemLe m1).map Prod.fst).Perm (m1.map Prod.fst) :=
        (List.perm_insertionSort itemLe m1).map Prod.fst
      exact hmp.nodup_iff.mpr hnd
  unfold generate_doc_hash sortedItemsE
  rw [hstr, hint, hsort]

/-- A concrete two-field map. -/
def mW1 : PyDict := [(.str "a", .int 1), (.str "b", .str "x")]

/-- The same map built in the opposite insertion order. -/
def mW2 : PyDict := [(.str "b", .str "x"), (.str "a", .int 1)]

/-- Witness for C5 on a concrete pair of equal maps with swapped insertion
order. -/
theorem generate_doc_hash_deterministic_witness :
    mW1.Perm mW2 ∧ generate_doc_hash mW1 = generate_doc_hash mW2 := by
  have hp : mW1.Perm mW2 := List.Perm.swap _ _ _
  exact ⟨hp, generate_doc_hash_deterministic mW1 mW2 hp (by decide)⟩

/-- Statistics accumulation is associative. -/
theorem stats_add_assoc (a b c : Stats) : (a.add b).add c = a.add (b.add c) := by
  simp [Stats.add, Nat.add_assoc]

/-- The zero entry is neutral on the left. -/
theorem stats_add_zero_left (a : Stats) : stats0.add a = a := by
  cases a
  simp [Stats.add, stats0]

/-- The zero entry is neutral on the right. -/
theorem stats_add_zero_right (a : Stats) : a.add stats0 = a := by
  cases a
  simp [Stats.add, stats0]

/-- Folding the pass step from any accumulator equals the accumulator plus
the pass totals. -/
theorem pass_foldl_from (globals : List String) (src : SourceCluster)
    (tgtIndices : List String) (accept : Action → Bool) (l : List String) :
    ∀ acc : Stats, l.foldl (passStep globals src tgtIndices accept) acc =
      acc.add (replicate_all_indices_pass globals src tgtIndices accept l) := by
  induction l with
  | nil =>
    intro acc
    simp [replicate_all_indices_pass, stats_add_zero_right]
  | cons i t ih =>
    intro acc
    have hrhs : replicate_all_indices_pass globals src tgtIndices accept (i :: t) =
        (replicate_single_index globals src tgtIndices accept i).add
          (replicate_all_indices_pass globals src tgtIndices accept t) := by
      show List.foldl (passStep globals src tgtIndices accept) stats0 (i :: t) = _
      rw [List.foldl_cons, ih (passStep globals src tgtIndices accept stats0 i)]
      show (stats0.add (replicate_single_index globals src tgtIndices accept i)).add _ = _
      rw [stats_add_zero_left]
    rw [List.foldl_cons, ih (passStep globals src tgtIndices accept acc i), hrhs]
    show (acc.add (replicate_single_index globals src tgtIndices accept i)).add _ = _
    rw [stats_add_assoc]

/-- C7: a collection whose replication raises is converted at the
Coordinator boundary into the zero-progress entry
`processed = 0, updated = 0, failed = 1`, and the pass totals still include
every other collection, before and after it, unchanged. -/
theorem pass_isolates_collection_failure (globals : List String) (src : SourceCluster)
    (tgtIndices : List String) (accept : Action → Bool) (pre post : List String)
    (idx : String) (e : PyErr)
    (herr : (replicate_index globals src tgtIndices accept idx).result = .error e) :
    replicate_single_index globals src tgtIndices accept idx = ⟨0, 0, 1⟩ ∧
    replicate_all_indices_pass globals src tgtIndices accept (pre ++ idx :: post) =
      ((replicate_all_indices_pass globals src tgtIndices accept pre).add ⟨0, 0, 1⟩).add
        (replicate_all_indices_pass globals src tgtIndices accept post) := by
  have hsingle : replicate_single_index globals src tgtIndices accept idx = ⟨0, 0, 1⟩ := by
    unfold replicate_single_index
    rw [herr]
  refine ⟨hsingle, ?_⟩
  have hfold : replicate_all_indices_pass globals src tgtIndices accept (pre ++ idx :: post) =
      List.foldl (passStep globals src tgtIndices accept)
        (passStep globals src tgtIndices accept
          (List.foldl (passStep globals src tgtIndices accept) stats0 pre) idx) post := by
    rw [replicate_all_indices_pass, List.foldl_append, List.foldl_cons]
  rw [hfold, pass_foldl_from]
  show ((List.foldl (passStep globals src tgtIndices accept) stats0 pre).add
      (replicate_single_index globals src tgtIndices accept idx)).add
      (replicate_all_indices_pass globals src tgtIndices accept post) = _
  rw [hsingle]
  rfl

/-- Witness for C7: a pass over a failing collection and a healthy empty
one yields the decomposed totals. -/
theorem pass_isolates_collection_failure_witness :
    (replicate_index esReplicatorGlobals srcW tgtW acceptAll "logs").result =
      Except.error (.nameError "batch_iterator") ∧
    (replicate_single_index esReplicatorGlobals srcW tgtW acceptAll "logs" = ⟨0, 0, 1⟩ ∧
     replicate_all_indices_pass esReplicatorGlobals srcW tgtW acceptAll
         ([] ++ "logs" :: ["empty"]) =
       ((replicate_all_indices_pass esReplicatorGlobals srcW tgtW acceptAll []).add
         ⟨0, 0, 1⟩).add
         (replicate_all_indices_pass esReplicatorGlobals srcW tgtW acceptAll ["empty"])) :=
  ⟨rfl, pass_isolates_collection_failure esReplicatorGlobals srcW tgtW acceptAll
    [] ["empty"] "logs" (.nameError "batch_iterator") rfl⟩

/-- Folding the document step of a batch from any accumulator prepends the
accumulator to the staged actions and adds its failure count. -/
theorem pbStep_foldl (tgt : String) (l : List RawDoc) :
    ∀ acc : List Action × Nat,
      (l.foldl (pbStep tgt) acc).1 = acc.1 ++ (process_batch tgt l).1 ∧
      (l.foldl (pbStep tgt) acc).2 = acc.2 + (process_batch tgt l).2 := by
  induction l with
  | nil =>
    intro acc
    simp [process_batch]
  | cons d t ih =>
    intro acc
    have hcons : (d :: t).foldl (pbStep tgt) acc = t.foldl (pbStep tgt) (pbStep tgt acc d) :=
      rfl
    rw [hcons]
    have hpb : process_batch tgt (d :: t) = t.foldl (pbStep tgt) (pbStep tgt ([], 0) d) :=
      rfl
    obtain ⟨ht1, ht2⟩ := ih (pbStep tgt acc d)
    obtain ⟨hb1, hb2⟩ := ih (pbStep tgt ([], 0) d)
    cases hse : sortedItemsE d.source with
    | ok items =>
      have hstep : ∀ a : List Action × Nat, pbStep tgt a d =
          (a.1 ++ [⟨"index", tgt, d.id, pyDictSet d.source (.str checksum_field)
            (.str (sha256hex (utf8Encode (pyItemsRepr items))))⟩], a.2) := by
        intro a
        simp [pbStep, generate_doc_hash, hse]
      constructor
      · rw [ht1, hpb, hb1, hstep acc, hstep ([], 0)]
        simp
      · rw [ht2, hpb, hb2, hstep acc, hstep ([], 0)]
        simp
    | error e =>
      have hstep : ∀ a : List Action × Nat, pbStep tgt a d = (a.1, a.2 + 1) := by
        intro a
        simp [pbStep, generate_doc_hash, hse]
      constructor
      · rw [ht1, hpb, hb1, hstep acc, hstep ([], 0)]
        simp
      · rw [ht2, hpb, hb2, hstep acc, hstep ([], 0)]
        simp
        omega

/-- The staged-action count and the failed-document count of one batch are
the counts of hashable and unhashable documents in it. -/
theorem process_batch_counts (tgt : String) (batch : List RawDoc) :
    (process_batch tgt batch).1.length = batch.countP (fun d => hashSucceeds d.source) ∧
    (process_batch tgt batch).2 = batch.countP (fun d => !hashSucceeds d.source) := by
  induction batch with
  | nil =>
    simp [process_batch]
  | cons d t ih =>
    have hpb : process_batch tgt (d :: t) = t.foldl (pbStep tgt) (pbStep tgt ([], 0) d) :=
      rfl
    obtain ⟨hb1, hb2⟩ := pbStep_foldl tgt t (pbStep tgt ([], 0) d)
    cases hse : sortedItemsE d.source with
    | ok items =>
      have hsucc : hashSucceeds d.source = true := by
        rw [hashSucceeds, hse]
      have hstep : pbStep tgt ([], 0) d =
          ([⟨"index", tgt, d.id, pyDictSet d.source (.str checksum_field)
            (.str (sha256hex (utf8Encode (pyItemsRepr items))))⟩], 0) := by
        simp [pbStep, generate_doc_hash, hse]
      constructor
      · rw [hpb, hb1, hstep, List.countP_cons]
        simp [hsucc, ih.1]
      · rw [hpb, hb2, hstep, List.countP_cons]
        simp [hsucc, ih.2]
    | error e =>
      have hfail : hashSucceeds d.source = false := by
        rw [hashSucceeds, hse]
      have hstep : pbStep tgt ([], 0) d = ([], 1) := by
        simp [pbStep, generate_doc_hash, hse]
      constructor
      · rw [hpb, hb1, hstep, List.countP_cons]
        simp [hfail, ih.1]
      · rw [hpb, hb2, hstep, List.countP_cons]
        simp [hfail, ih.2]
        omega

/-- Folding the batch loop from any accumulator adds the accumulated
statistics on the left. -/
theorem runBatchLoop_from (accept : Action → Bool) (tgt : String)
    (l : List (List RawDoc)) :
    ∀ acc : Stats × List (List Action),
      (l.foldl (loopStep accept tgt) acc).1 = acc.1.add (runBatchLoop accept tgt l).1 := by
  induction l with
  | nil =>
    intro acc
    simp [runBatchLoop, stats_add_zero_right]
  | cons b t ih =>
    intro acc
    have hrun : (runBatchLoop accept tgt (b :: t)).1 =
        (batchStep accept tgt b).1.add (runBatchLoop accept tgt t).1 := by
      show (List.foldl (loopStep accept tgt) (loopStep accept tgt (stats0, []) b) t).1 = _
      rw [ih (loopStep accept tgt (stats0, []) b)]
      show (stats0.add (batchStep accept tgt b).1).add _ = _
      rw [stats_add_zero_left]
    have hl : (b :: t).foldl (loopStep accept tgt) acc =
        t.foldl (loopStep accept tgt) (loopStep accept tgt acc b) :=
      rfl
    rw [hl, ih (loopStep accept tgt acc b), hrun]
    show (acc.1.add (batchStep accept tgt b).1).add _ = _
    rw [stats_add_assoc]

/-- The pass statistics over batches decompose around any one batch:
earlier and later batches contribute independently of it. -/
theorem runBatchLoop_append_middle (accept : Action → Bool) (tgt : String)
    (pre post : List (List RawDoc)) (b : List RawDoc) :
    (runBatchLoop accept tgt (pre ++ b :: post)).1 =
      ((runBatchLoop accept tgt pre).1.add (batchStep accept tgt b).1).add
        (runBatchLoop accept tgt post).1 := by
  have h1 : runBatchLoop accept tgt (pre ++ b :: post) =
      List.foldl (loopStep accept tgt)
        (loopStep accept tgt (List.foldl (loopStep accept tgt) (stats0, []) pre) b)
        post := by
    rw [runBatchLoop, List.foldl_append, List.foldl_cons]
  rw [h1, runBatchLoop_from accept tgt post]
  show ((List.foldl (loopStep accept tgt) (stats0, []) pre).1.add
    (batchStep accept tgt b).1).add _ = _
  rfl

/-- Every action of a list is accepted by the always-accepting target. -/
theorem countP_acceptAll (l : List Action) : l.countP acceptAll = l.length := by
  induction l with
  | nil => rfl
  | cons a t ih =>
    rw [List.countP_cons, ih]
    simp [acceptAll]

/-- C6: a batch with exactly one malformed document among otherwise
hashable documents yields `failed = 1` and `success = n - 1`, the other
`n - 1` documents are still staged into the submitted bulk request, and
batches before and after it contribute to the pass statistics unchanged —
an individual document's failure aborts neither its batch nor the remaining
batches. -/
theorem one_malformed_doc_contained (tgt : String) (g1 g2 : List RawDoc)
    (bad : RawDoc) (pre post : List (List RawDoc))
    (hg : ∀ d ∈ g1 ++ g2, hashSucceeds d.source = true)
    (hb : hashSucceeds bad.source = false)
    (hne : g1.length + g2.length ≠ 0) :
    (batchStep acceptAll tgt (g1 ++ bad :: g2)).1 =
      ⟨g1.length + g2.length, g1.length + g2.length, 1⟩ ∧
    (∃ acts, (batchStep acceptAll tgt (g1 ++ bad :: g2)).2 = some acts ∧
      acts.length = g1.length + g2.length) ∧
    (runBatchLoop acceptAll tgt (pre ++ (g1 ++ bad :: g2) :: post)).1 =
      ((runBatchLoop acceptAll tgt pre).1.add
        ⟨g1.length + g2.length, g1.length + g2.length, 1⟩).add
        (runBatchLoop acceptAll tgt post).1 := by
  obtain ⟨hc1, hc2⟩ := process_batch_counts tgt (g1 ++ bad :: g2)
  have hcntS : List.countP (fun d => hashSucceeds d.source) (g1 ++ bad :: g2) =
      g1.length + g2.length := by
    rw [List.countP_append, List.countP_cons]
    have e1 : List.countP (fun d => hashSucceeds d.source) g1 = g1.length :=
      List.countP_eq_length.mpr (fun a ha => by
        simpa using hg a (List.mem_append_left g2 ha))
    have e2 : List.countP (fun d => hashSucceeds d.source) g2 = g2.length :=
      List.countP_eq_length.mpr (fun a ha => by
        simpa using hg a (List.mem_append_right g1 ha))
    rw [e1, e2, hb]
    simp
  have hcntF : List.countP (fun d => !hashSucceeds d.source) (g1 ++ bad :: g2) = 1 := by
    rw [List.countP_append, List.countP_cons]
    have e1 : List.countP (fun d => !hashSucceeds d.source) g1 = 0 :=
      List.countP_eq_zero.mpr (fun a ha => by
        simp [hg a (List.mem_append_left g2 ha)])
    have e2 : List.countP (fun d => !hashSucceeds d.source) g2 = 0 :=
      List.countP_eq_zero.mpr (fun a ha => by
        simp [hg a (List.mem_append_right g1 ha)])
    rw [e1, e2, hb]
    simp
  have hlen : (process_batch tgt (g1 ++ bad :: g2)).1.length = g1.length + g2.length :=
    hc1.trans hcntS
  have hfail : (process_batch tgt (g1 ++ bad :: g2)).2 = 1 := hc2.trans hcntF
  have hnonnil : (process_batch tgt (g1 ++ bad :: g2)).1.isEmpty = false := by
    cases hpe : (process_batch tgt (g1 ++ bad :: g2)).1.isEmpty with
    | false => rfl
    | true =>
      exfalso
      have hnil : (process_batch tgt (g1 ++ bad :: g2)).1 = [] := by
        simpa using hpe
      rw [hnil] at hlen
      exact hne (by simpa using hlen.symm)
  have hbs : batchStep acceptAll tgt (g1 ++ bad :: g2) =
      (⟨g1.length + g2.length, g1.length + g2.length, 1⟩,
        some (process_batch tgt (g1 ++ bad :: g2)).1) := by
    simp only [batchStep, hnonnil, Bool.false_eq_true, if_false, helpers_bulk,
      countP_acceptAll]
    rw [hfail, hlen]
    simp
  refine ⟨?_, ?_, ?_⟩
  · rw [hbs]
  · exact ⟨(process_batch tgt (g1 ++ bad :: g2)).1, by rw [hbs], hlen⟩
  · rw [runBatchLoop_append_middle, hbs]

/-- A hashable one-field document. -/
def goodDocA : RawDoc := ⟨"a", [(.str "f", .str "1")]⟩

/-- Another hashable document. -/
def goodDocC : RawDoc := ⟨"c", [(.str "g", .int 2)]⟩

/-- A document whose source mixes string and integer keys, so its hash
computation raises `TypeError`. -/
def badDocB : RawDoc := ⟨"b", [(.str "k", .int 1), (.int 0, .str "x")]⟩

/-- A hashable document for a following batch. -/
def goodDocD : RawDoc := ⟨"d", [(.str "h", .bool true)]⟩

/-- Witness for C6: a concrete three-document batch with one malformed
document, followed by a further batch. -/
theorem one_malformed_doc_contained_witness :
    hashSucceeds badDocB.source = false ∧
    ((batchStep acceptAll "t" ([goodDocA] ++ badDocB :: [goodDocC])).1 =
        ⟨[goodDocA].length + [goodDocC].length,
          [goodDocA].length + [goodDocC].length, 1⟩ ∧
      (∃ acts,
        (batchStep acceptAll "t" ([goodDocA] ++ badDocB :: [goodDocC])).2 = some acts ∧
        acts.length = [goodDocA].length + [goodDocC].length) ∧
      (runBatchLoop acceptAll "t"
          ([] ++ ([goodDocA] ++ badDocB :: [goodDocC]) :: [[goodDocD]])).1 =
        ((runBatchLoop acceptAll "t" []).1.add
          ⟨[goodDocA].length + [goodDocC].length,
            [goodDocA].length + [goodDocC].length, 1⟩).add
          (runBatchLoop acceptAll "t" [[goodDocD]]).1) :=
  ⟨by decide,
    one_malformed_doc_contained "t" [goodDocA] [goodDocC] badDocB [] [[goodDocD]]
      (by decide) (by decide) (by decide)⟩

/-- The comparison loop adds the source-sample size to `checked` and the
mismatching-id count to `mismatches`, leaving the other two counters
untouched. -/
theorem compareSamples_spec :
    ∀ (src : List (String × Option Value)) (st : VerifyStats)
      (tgt : List (String × Option Value)),
      compareSamples st src tgt =
        ⟨st.checked + src.length, st.mismatches + sampleMismatchCount src tgt,
         st.missingIndices, st.countMismatches⟩ := by
  intro src
  induction src with
  | nil =>
    intro st tgt
    cases st
    simp [compareSamples, sampleMismatchCount]
  | cons p t ih =>
    intro st tgt
    cases hl : List.lookup p.1 tgt with
    | none =>
      have hcons : compareSamples st (p :: t) tgt =
          compareSamples
            { st with mismatches := st.mismatches + 1, checked := st.checked + 1 } t tgt := by
        simp [compareSamples, hl]
      rw [hcons, ih]
      simp [sampleMismatchCount, List.countP_cons, hl]
      omega
    | some tv =>
      by_cases hd : p.2 = tv
      · have hcons : compareSamples st (p :: t) tgt =
            compareSamples { st with checked := st.checked + 1 } t tgt := by
          simp [compareSamples, hl, hd]
        rw [hcons, ih]
        simp [sampleMismatchCount, List.countP_cons, hl, hd]
        omega
      · have hcons : compareSamples st (p :: t) tgt =
            compareSamples
              { st with mismatches := st.mismatches + 1, checked := st.checked + 1 } t tgt := by
          simp [compareSamples, hl, hd]
        rw [hcons, ih]
        simp [sampleMismatchCount, List.countP_cons, hl, hd]
        omega

/-- The two counts differ by zero exactly on equal inputs. -/
theorem absDiff_self (s : Nat) : absDiff s s = 0 := by
  simp [absDiff]

/-- C8: for a collection present on both clusters, the count comparison
records the absolute delta of the two totals in both `mismatches` and
`count_mismatches`, for every possible pair of samples — the delta is
detected before and independently of any document sampling, which can only
add further (content) mismatches on top. -/
theorem count_delta_in_both_counters (s t : Nat)
    (srcHits tgtHits : List (String × PyDict)) :
    (verify_replication [⟨true, s, t, srcHits, tgtHits⟩]).countMismatches =
      absDiff s t ∧
    (verify_replication [⟨true, s, t, srcHits, tgtHits⟩]).mismatches =
      absDiff s t + (if min 1000 s = 0 then 0
        else sampleMismatchCount (sampleMap srcHits) (sampleMap tgtHits)) := by
  have hv : verify_replication [⟨true, s, t, srcHits, tgtHits⟩] =
      verifyIndexStep vstats0 ⟨true, s, t, srcHits, tgtHits⟩ := rfl
  rw [hv]
  by_cases hst : s = t
  · subst hst
    have hstep : verifyIndexStep vstats0 ⟨true, s, s, srcHits, tgtHits⟩ =
        (if min 1000 s = 0 then vstats0
          else compareSamples vstats0 (sampleMap srcHits) (sampleMap tgtHits)) := by
      simp [verifyIndexStep]
    rw [hstep, absDiff_self]
    by_cases hmin : min 1000 s = 0
    · simp [hmin, vstats0]
    · rw [if_neg hmin, if_neg hmin, compareSamples_spec]
      simp [vstats0]
  · have hstep : verifyIndexStep vstats0 ⟨true, s, t, srcHits, tgtHits⟩ =
        (if min 1000 s = 0 then (⟨0, absDiff s t, 0, absDiff s t⟩ : VerifyStats)
          else compareSamples ⟨0, absDiff s t, 0, absDiff s t⟩
            (sampleMap srcHits) (sampleMap tgtHits)) := by
      simp [verifyIndexStep, hst, vstats0]
    rw [hstep]
    by_cases hmin : min 1000 s = 0
    · simp [hmin]
    · rw [if_neg hmin, if_neg hmin, compareSamples_spec]
      simp

/-- C9 counterexample: a source sample holding one id that the target
sample lacks.  The code counts it as checked (`checked = 1`) although the
number of sampled ids with matching fingerprints on both sides is 0, so
`checked` does not equal the number of matching entries. -/
theorem checked_includes_nonmatching :
    (verify_replication
      [⟨true, 1, 1, [("a", [(.str "_doc_hash", .str "h")])], []⟩]).checked = 1 ∧
    specMatchingCount (sampleMap [("a", [(.str "_doc_hash", .str "h")])])
      (sampleMap []) = 0 ∧
    (verify_replication
      [⟨true, 1, 1, [("a", [(.str "_doc_hash", .str "h")])], []⟩]).checked ≠
      specMatchingCount (sampleMap [("a", [(.str "_doc_hash", .str "h")])])
        (sampleMap []) := by
  refine ⟨by decide, by decide, by decide⟩

/-- C9 amended: the mismatch counting is as the claim states (one mismatch
per sampled source id that is absent from the target sample or carries a
different fingerprint), but `checked` counts every id of the source sample
— incremented on matching and mismatching ids alike — not only the
matching ones. -/
theorem checked_counts_every_sampled_id (c : Nat) (hc : 0 < c)
    (srcHits tgtHits : List (String × PyDict)) :
    (verify_replication [⟨true, c, c, srcHits, tgtHits⟩]).checked =
      (sampleMap srcHits).length ∧
    (verify_replication [⟨true, c, c, srcHits, tgtHits⟩]).mismatches =
      sampleMismatchCount (sampleMap srcHits) (sampleMap tgtHits) := by
  have hmin : ¬ min 1000 c = 0 := by omega
  have hv : verify_replication [⟨true, c, c, srcHits, tgtHits⟩] =
      verifyIndexStep vstats0 ⟨true, c, c, srcHits, tgtHits⟩ := rfl
  have hstep : verifyIndexStep vstats0 ⟨true, c, c, srcHits, tgtHits⟩ =
      compareSamples vstats0 (sampleMap srcHits) (sampleMap tgtHits) := by
    simp [verifyIndexStep, hmin]
  rw [hv, hstep, compareSamples_spec]
  simp [vstats0]

/-- Witness for C9's amended statement on a concrete one-id sample. -/
theorem checked_counts_every_sampled_id_witness :
    0 < 1 ∧
    ((verify_replication
        [⟨true, 1, 1, [("a", [(.str "_doc_hash", .str "h")])], []⟩]).checked =
      (sampleMap [("a", [(.str "_doc_hash", .str "h")])]).length ∧
     (verify_replication
        [⟨true, 1, 1, [("a", [(.str "_doc_hash", .str "h")])], []⟩]).mismatches =
      sampleMismatchCount (sampleMap [("a", [(.str "_doc_hash", .str "h")])])
        (sampleMap [])) :=
  ⟨Nat.one_pos,
    checked_counts_every_sampled_id 1 Nat.one_pos [("a", [(.str "_doc_hash", .str "h")])] []⟩

/-- Source-side sample of three replicated documents: the source cluster's
documents do not carry the checksum field (only the target is tagged during
replication), so the projected `_source` of each hit is empty. -/
def vSrcHits3 : List (String × PyDict) := [("d1", []), ("d2", []), ("d3", [])]

/-- Target-side sample of the same three ids: each target document stores
the fingerprint written at replication time, the second one differing
because its document was altered. -/
def vTgtHits3 : List (String × PyDict) :=
  [("d1", [(.str "_doc_hash", .str "h1")]),
   ("d2", [(.str "_doc_hash", .str "h2alt")]),
   ("d3", [(.str "_doc_hash", .str "h3")])]

/-- C3: with equal counts (100 each) and a three-document sample including
the altered document, the code reports a mismatch for every sampled
document — source-side fingerprints are all `None` because source documents
never carry the checksum field — so `mismatches = 3` (the whole sample),
not the claimed exactly 1; `count_mismatches = 0` does hold. -/
theorem verify_flags_every_replicated_doc :
    verify_replication [⟨true, 100, 100, vSrcHits3, vTgtHits3⟩] =
      ⟨3, 3, 0, 0⟩ := by
  decide

end EsReplicator
